import Mathlib

/-!
Verification of `run.py` from the `dvmn_invoice` repository.

The program is a monthly billing workflow: it computes a default
(month, year) by walking back from the current date, fetches an invoice,
and for each reviewer in the invoice's reviewer→telegram mapping it
slices the summary/review tables, applies skip/confirm checks, creates
and populates a Google spreadsheet, and sends one Telegram message.

This file shallowly embeds the pieces of `run.py` the claims are about:

* the default-month computation of the `__main__` block (lines 162-169),
  over a Gregorian calendar model;
* the spreadsheet write helper `write_df_to_worksheet` (lines 83-96),
  over a list-of-worksheets spreadsheet model;
* the per-reviewer loop of `amain` (lines 115-153), as a trace-producing
  function over an explicit world of operator answers and
  external-call failure outcomes.

External services (Google API, Telegram, stdin) are opaque to the
program; their responses are modelled as function parameters in `World`,
and an external call that raises is modelled by the `fails` oracle.
-/

namespace DvmnInvoice

/-! ## Gregorian calendar model and the default-month loop

`run.py` lines 162-169:

    now = datetime.datetime.now()
    max_days_in_month = 31
    for day in range(1, max_days_in_month + 1):
        prev_month_date = now - datetime.timedelta(days=day)
        if prev_month_date.month != now.month:
            default_month = prev_month_date.month
            default_year = prev_month_date.year
            break

`datetime` subtraction follows the proleptic Gregorian calendar, which
`isLeapYear` / `daysInMonth` / `predDay` model. -/

def isLeapYear (y : Int) : Bool :=
  (y % 4 == 0 && y % 100 != 0) || y % 400 == 0

def daysInMonth (y : Int) (m : Nat) : Nat :=
  if m == 2 then (if isLeapYear y then 29 else 28)
  else if m == 4 || m == 6 || m == 9 || m == 11 then 30
  else 31

structure Date where
  year : Int
  month : Nat
  day : Nat
deriving DecidableEq, Repr

def Date.Valid (d : Date) : Prop :=
  1 ≤ d.month ∧ d.month ≤ 12 ∧ 1 ≤ d.day ∧ d.day ≤ daysInMonth d.year d.month

instance (d : Date) : Decidable d.Valid := by
  unfold Date.Valid; infer_instance

/-- The previous calendar day (`now - timedelta(days=1)` restricted to dates). -/
def predDay (d : Date) : Date :=
  if 1 < d.day then ⟨d.year, d.month, d.day - 1⟩
  else if 1 < d.month then ⟨d.year, d.month - 1, daysInMonth d.year (d.month - 1)⟩
  else ⟨d.year - 1, 12, 31⟩

/-- `now - timedelta(days=k)`. -/
def subDays (d : Date) : Nat → Date
  | 0 => d
  | k + 1 => predDay (subDays d k)

/-- The `for day in range(1, max_days_in_month + 1)` loop of the
`__main__` block: try day offsets `day, day+1, …` for `fuel` remaining
iterations and return the `(month, year)` of the first offset date whose
month differs from `now`'s; `none` models falling through the loop with
`default_month` left unbound. -/
def boundaryLoop (now : Date) : Nat → Nat → Option (Nat × Int)
  | _, 0 => none
  | day, fuel + 1 =>
    let prevMonthDate := subDays now day
    if prevMonthDate.month ≠ now.month then some (prevMonthDate.month, prevMonthDate.year)
    else boundaryLoop now (day + 1) fuel

/-- `(default_month, default_year)` as computed by lines 162-169:
offsets start at `day = 1` and the loop runs at most
`max_days_in_month = 31` iterations. -/
def defaultMonthYear (now : Date) : Option (Nat × Int) :=
  boundaryLoop now 1 31

/-- The month strictly before `now`'s month (wrapping a January back to
the previous December). -/
def prevMonth (now : Date) : Nat :=
  if now.month = 1 then 12 else now.month - 1

/-- The year of the month strictly before `now`'s month. -/
def prevYear (now : Date) : Int :=
  if now.month = 1 then now.year - 1 else now.year

theorem daysInMonth_le (y : Int) (m : Nat) : daysInMonth y m ≤ 31 := by
  unfold daysInMonth
  repeat' split
  all_goals omega

theorem subDays_of_lt (now : Date) (hv : now.Valid) :
    ∀ k, k < now.day → subDays now k = ⟨now.year, now.month, now.day - k⟩
  | 0, _ => by cases now; simp [subDays]
  | k + 1, hk => by
    have ih := subDays_of_lt now hv k (Nat.lt_of_succ_lt hk)
    have h2 : 1 < now.day - k := by omega
    rw [subDays, ih, predDay]
    simp only [h2, if_pos]
    congr 1

theorem subDays_day (now : Date) (hv : now.Valid) :
    subDays now now.day =
      ⟨prevYear now, prevMonth now, daysInMonth (prevYear now) (prevMonth now)⟩ := by
  obtain ⟨hm1, hm12, hd1, hdm⟩ := hv
  have hday : now.day = (now.day - 1) + 1 := by omega
  rw [hday, subDays, subDays_of_lt now ⟨hm1, hm12, hd1, hdm⟩ (now.day - 1) (by omega)]
  have h1 : now.day - (now.day - 1) = 1 := by omega
  rw [h1, predDay]
  simp only [show ¬ (1 < 1) from by omega, if_neg, not_false_iff]
  by_cases hm : now.month = 1
  · simp [hm, prevMonth, prevYear, daysInMonth]
  · have h2 : 1 < now.month := by omega
    simp [h2, prevMonth, prevYear, hm]

theorem prevMonth_ne (now : Date) (hv : now.Valid) : prevMonth now ≠ now.month := by
  obtain ⟨hm1, _, _, _⟩ := hv
  unfold prevMonth
  split <;> omega

theorem boundaryLoop_finds (now : Date) (hv : now.Valid) :
    ∀ fuel day, 1 ≤ day → day ≤ now.day → now.day < day + fuel →
      boundaryLoop now day fuel = some (prevMonth now, prevYear now)
  | 0, day, _, hle, hlt => by omega
  | fuel + 1, day, h1, hle, hlt => by
    rcases Nat.lt_or_ge day now.day with hcase | hcase
    · rw [boundaryLoop]
      simp only [subDays_of_lt now hv day hcase, ne_eq, not_true_eq_false,
        if_neg, not_not]
      exact boundaryLoop_finds now hv fuel (day + 1) (by omega) (by omega) (by omega)
    · have hday : day = now.day := by omega
      subst hday
      rw [boundaryLoop]
      simp only [subDays_day now hv, ne_eq]
      rw [if_pos (prevMonth_ne now hv)]

/-- **C1.** For every valid current date `now`, the `__main__`
default-month loop (walking backward day-by-day from offset 1, at most
31 offsets) finds a month boundary and sets
`(default_month, default_year)` to the month and year of the most recent
calendar month strictly before `now`'s month. -/
theorem defaultMonthYear_eq_prev (now : Date) (hv : now.Valid) :
    defaultMonthYear now = some (prevMonth now, prevYear now) := by
  obtain ⟨hm1, hm12, hd1, hdm⟩ := hv
  have h31 : now.day ≤ 31 := le_trans hdm (daysInMonth_le now.year now.month)
  exact boundaryLoop_finds now ⟨hm1, hm12, hd1, hdm⟩ 31 1 le_rfl hd1 (by omega)

/-- **C1 witness.** On 2024-03-15 the loop yields February 2024. -/
theorem defaultMonthYear_eq_prev_witness :
    (Date.mk 2024 3 15).Valid ∧ defaultMonthYear ⟨2024, 3, 15⟩ = some (2, 2024) :=
  ⟨by decide, defaultMonthYear_eq_prev ⟨2024, 3, 15⟩ (by decide)⟩

/-! ## Dataframes and reviewer slices

`amain` builds `month_reviews_df` and `summary_df` from the invoice JSON
and slices them per reviewer with
`df[df['Ревьюер'] == dvmn_reviewer_username]` (lines 111-117).
A `Row` models one dataframe row: `reviewer` is the value of its
`Ревьюер` column and `cells` the full list of cell values in column
order (`df.values` row). -/

structure Row where
  reviewer : String
  cells : List String
deriving DecidableEq, Repr

structure DataFrame where
  columns : List String
  rows : List Row
deriving DecidableEq, Repr

/-- `df[df['Ревьюер'] == u]`: the subset of rows whose reviewer field
equals `u`, in original order. -/
def sliceDf (df : DataFrame) (u : String) : DataFrame :=
  { columns := df.columns, rows := df.rows.filter (fun r => r.reviewer == u) }

/-! ## Spreadsheet model and `write_df_to_worksheet` (lines 83-96)

A worksheet is modelled by its title, its grid capacity, and the list of
rows inserted into it (`data`); `gspread`'s `insert_row(r)` inserts at
row 1 and `insert_rows(rs, pos)` inserts before the existing row at
position `pos` (1-based). `spreadsheet.get_worksheet(i)` raises
`WorksheetNotFound` when no worksheet exists at index `i`, modelled by
`Option`. -/

structure Worksheet where
  title : String
  capRows : Nat
  capCols : Nat
  data : List (List String)
deriving DecidableEq, Repr

structure Spreadsheet where
  worksheets : List Worksheet
deriving DecidableEq, Repr

def getWorksheet (s : Spreadsheet) (i : Nat) : Option Worksheet :=
  s.worksheets.get? i

def setWorksheet (s : Spreadsheet) (i : Nat) (ws : Worksheet) : Spreadsheet :=
  ⟨s.worksheets.set i ws⟩

/-- `worksheet.insert_row(row)` (default index 1). -/
def insertRow (ws : Worksheet) (row : List String) : Worksheet :=
  { ws with data := row :: ws.data }

/-- `worksheet.insert_rows(rows, pos)`: insert before the 1-based
position `pos`. -/
def insertRows (ws : Worksheet) (rows : List (List String)) (pos : Nat) : Worksheet :=
  { ws with data := ws.data.take (pos - 1) ++ rows ++ ws.data.drop (pos - 1) }

/-- `write_df_to_worksheet(spreadsheet, df, worksheet_index,
worksheet_name)`, lines 83-96: rename the worksheet at the slot if one
exists, otherwise catch `WorksheetNotFound`, add a 1000×26 worksheet and
address it by the worksheet count taken before the add; then insert the
header row and the data rows at row 2. -/
def write_df_to_worksheet (s : Spreadsheet) (df : DataFrame)
    (worksheet_index : Nat) (worksheet_name : String) : Spreadsheet :=
  match getWorksheet s worksheet_index with
  | some ws =>
    let ws := { ws with title := worksheet_name }
    let ws := insertRow ws df.columns
    let ws := insertRows ws (df.rows.map Row.cells) 2
    setWorksheet s worksheet_index ws
  | none =>
    let worksheets_count := s.worksheets.length
    let default_rows_count := 1000
    let default_cols_count := 26
    let s' : Spreadsheet :=
      ⟨s.worksheets ++ [⟨worksheet_name, default_rows_count, default_cols_count, []⟩]⟩
    match getWorksheet s' worksheets_count with
    | some ws =>
      let ws := insertRow ws df.columns
      let ws := insertRows ws (df.rows.map Row.cells) 2
      setWorksheet s' worksheets_count ws
    | none => s'

/-- `google_client.create(name)`: a fresh Google spreadsheet holds one
default worksheet (title `Sheet1`, 1000 rows × 26 columns, no data). -/
def googleCreate : Spreadsheet :=
  ⟨[⟨"Sheet1", 1000, 26, []⟩]⟩

/-- Lines 138-143 of `amain` for one reviewer: create the spreadsheet,
write the review slice at slot 0 named `Ревью`, then the summary slice
at slot 1 named `Суммарно`. -/
def reviewerSpreadsheet (reviewsDf summaryDf : DataFrame) : Spreadsheet :=
  write_df_to_worksheet
    (write_df_to_worksheet googleCreate reviewsDf 0 "Ревью")
    summaryDf 1 "Суммарно"

theorem get?_append_length {α : Type} (l : List α) (a : α) :
    (l ++ [a]).get? l.length = some a := by
  induction l with
  | nil => rfl
  | cons x xs ih => exact ih

theorem set_append_length {α : Type} (l : List α) (a b : α) :
    (l ++ [a]).set l.length b = l ++ [b] := by
  induction l with
  | nil => rfl
  | cons x xs ih => simp [ih]

/-- **C7.** `write_df_to_worksheet` has exactly two behaviours: when a
worksheet exists at the slot it is renamed and receives the header plus
data rows at the top; when the slot is empty the `WorksheetNotFound`
condition is handled (the function is total, no failure is surfaced) by
appending a fresh 1000×26 worksheet, addressed by the worksheet count
taken before the add, which receives the header plus data rows. -/
theorem write_df_to_worksheet_branches (s : Spreadsheet) (df : DataFrame)
    (i : Nat) (name : String) :
    (∀ ws, getWorksheet s i = some ws →
      write_df_to_worksheet s df i name =
        setWorksheet s i
          ⟨name, ws.capRows, ws.capCols,
            df.columns :: (df.rows.map Row.cells ++ ws.data)⟩) ∧
    (getWorksheet s i = none →
      write_df_to_worksheet s df i name =
        ⟨s.worksheets ++ [⟨name, 1000, 26, df.columns :: df.rows.map Row.cells⟩]⟩) := by
  constructor
  · intro ws h
    unfold write_df_to_worksheet
    rw [h]
    simp [insertRow, insertRows]
  · intro h
    unfold write_df_to_worksheet
    rw [h]
    simp only [getWorksheet, get?_append_length]
    simp [insertRow, insertRows, setWorksheet, set_append_length]

/-- **C7 witness.** Both branches at concrete inputs: slot 0 of a fresh
spreadsheet exists and is renamed; slot 1 does not exist and a fresh
1000×26 worksheet is appended. -/
theorem write_df_to_worksheet_branches_witness :
    write_df_to_worksheet googleCreate ⟨["Ревьюер"], [⟨"alice", ["alice", "3"]⟩]⟩ 0 "Ревью" =
      ⟨[⟨"Ревью", 1000, 26, [["Ревьюер"], ["alice", "3"]]⟩]⟩ ∧
    write_df_to_worksheet googleCreate ⟨["Ревьюер"], []⟩ 1 "Суммарно" =
      ⟨[⟨"Sheet1", 1000, 26, []⟩, ⟨"Суммарно", 1000, 26, [["Ревьюер"]]⟩]⟩ :=
  ⟨(write_df_to_worksheet_branches googleCreate ⟨["Ревьюер"], [⟨"alice", ["alice", "3"]⟩]⟩
      0 "Ревью").1 ⟨"Sheet1", 1000, 26, []⟩ rfl,
   (write_df_to_worksheet_branches googleCreate ⟨["Ревьюер"], []⟩
      1 "Суммарно").2 rfl⟩

/-- **C6.** For every reviewer's two slices, the spreadsheet built by
lines 138-143 has exactly two worksheets: the review slice at slot 0
(named `Ревью`) and the summary slice at slot 1 (named `Суммарно`), each
holding the header row of column names at row 1 followed by all the
slice's data rows from row 2 in original order, hence 1 + N rows. -/
theorem reviewerSpreadsheet_two_worksheets (month summary : DataFrame) (u : String) :
    (reviewerSpreadsheet (sliceDf month u) (sliceDf summary u)).worksheets.length = 2 ∧
    getWorksheet (reviewerSpreadsheet (sliceDf month u) (sliceDf summary u)) 0 =
      some ⟨"Ревью", 1000, 26,
        month.columns :: (month.rows.filter (fun r => r.reviewer == u)).map Row.cells⟩ ∧
    getWorksheet (reviewerSpreadsheet (sliceDf month u) (sliceDf summary u)) 1 =
      some ⟨"Суммарно", 1000, 26,
        summary.columns :: (summary.rows.filter (fun r => r.reviewer == u)).map Row.cells⟩ ∧
    (∀ ws, getWorksheet (reviewerSpreadsheet (sliceDf month u) (sliceDf summary u)) 0 =
        some ws →
      ws.data.length = 1 + (sliceDf month u).rows.length) ∧
    (∀ ws, getWorksheet (reviewerSpreadsheet (sliceDf month u) (sliceDf summary u)) 1 =
        some ws →
      ws.data.length = 1 + (sliceDf summary u).rows.length) := by
  refine ⟨rfl, ?_, ?_, ?_, ?_⟩
  · simp [reviewerSpreadsheet, write_df_to_worksheet, googleCreate, getWorksheet,
      setWorksheet, insertRow, insertRows, sliceDf]
  · simp [reviewerSpreadsheet, write_df_to_worksheet, googleCreate, getWorksheet,
      setWorksheet, insertRow, insertRows, sliceDf]
  all_goals
    intro ws h
    cases h
    simp [insertRow, insertRows, sliceDf, Nat.add_comm]

/-! ## The per-reviewer loop of `amain` (lines 115-153)

The loop's observable behaviour is modelled as a trace of events.
Opaque external ingredients are explicit parameters:

* `Config.googleTableName` models the `.format(year_month=…,
  username=…)` call on the `GOOGLE_TABLE_NAME` template string
  (line 137), and `Config.messageTemplate` the `.format(year=…,
  month=…, spreadsheet_url=…)` call on the loaded template file
  (line 151);
* `World.confirmAnswer` / `World.telegramAnswer` are the operator's
  `input(…)` responses to the two prompts (lines 124 and 131), keyed by
  reviewer username since each prompt is shown at most once per
  reviewer;
* `World.spreadsheetUrl` is the URL Google assigns to a created
  spreadsheet (line 139);
* `World.fails` tells which external calls raise; a raised call emits no
  event and aborts the run (no `try` surrounds the loop body). Lines
  152-153 are `async with tg_client: await tg_client.send_message(…)`,
  so a failing send still disconnects the session (the `async with`
  exit), while a failing session open emits neither open nor close. -/

structure Config where
  month : Int
  year : Int
  googleTableName : String → String → String
  messageTemplate : Int → Int → String → String
  confirmEveryReviewer : Bool
deriving Inhabited

inductive FailPoint where
  | create (u : String)
  | share (u : String)
  | writeReviews (u : String)
  | writeSummary (u : String)
  | sessionOpen (u : String)
  | send (u : String)
deriving DecidableEq, Repr

structure World where
  confirmAnswer : String → String
  telegramAnswer : String → String
  spreadsheetUrl : String → String
  fails : FailPoint → Bool

structure Invoice where
  monthReviews : List Row
  summary : List Row
  dvmnReviewers : List (String × String)
deriving Repr

inductive Event where
  | logNoWork (u : String)
  | promptConfirm (u : String)
  | logSkipConfirm (u : String)
  | promptTelegram (u : String)
  | warnNoTelegram (u : String)
  | createSpreadsheet (u name : String)
  | shareSpreadsheet (u name : String)
  | writeWorksheet (u : String) (slot : Nat) (wsName : String)
  | sessionOpen (u : String)
  | sendMessage (u handle message : String)
  | sessionClose (u : String)
deriving DecidableEq, Repr

/-- The reviewer iteration an event belongs to. -/
def Event.user : Event → String
  | .logNoWork u => u
  | .promptConfirm u => u
  | .logSkipConfirm u => u
  | .promptTelegram u => u
  | .warnNoTelegram u => u
  | .createSpreadsheet u _ => u
  | .shareSpreadsheet u _ => u
  | .writeWorksheet u _ _ => u
  | .sessionOpen u => u
  | .sendMessage u _ _ => u
  | .sessionClose u => u

def Event.isCreate : Event → Bool
  | .createSpreadsheet _ _ => true
  | _ => false

def Event.isSend : Event → Bool
  | .sendMessage _ _ _ => true
  | _ => false

def Event.isPromptConfirm : Event → Bool
  | .promptConfirm _ => true
  | _ => false

def Event.isPromptTelegram : Event → Bool
  | .promptTelegram _ => true
  | _ => false

def Event.isSession : Event → Bool
  | .sessionOpen _ => true
  | .sessionClose _ => true
  | _ => false

inductive StepResult where
  | skipped
  | processed
  | errored
deriving DecidableEq, Repr

/-- `f"{config.month:02d}"`. -/
def zfill2 (m : Int) : String :=
  if 0 ≤ m ∧ m < 10 then "0" ++ toString m else toString m

/-- Lines 136-137: `google_table_name` formatted with
`year_month = f"{config.year}_{config.month:02d}"` and the username. -/
def tableName (cfg : Config) (u : String) : String :=
  cfg.googleTableName (toString cfg.year ++ "_" ++ zfill2 cfg.month) u

/-- Line 151: the message rendered from the template file. -/
def renderedMessage (cfg : Config) (w : World) (u : String) : String :=
  cfg.messageTemplate cfg.year cfg.month (w.spreadsheetUrl (tableName cfg u))

/-- Lines 122-127 emit a confirmation prompt exactly when the flag is
set. -/
def confirmTrace (cfg : Config) (u : String) : List Event :=
  if cfg.confirmEveryReviewer then [Event.promptConfirm u] else []

/-- Lines 129-131 emit a replacement-handle prompt exactly when the
mapping's handle is empty. -/
def contactTrace (tg : String) (u : String) : List Event :=
  if tg.isEmpty then [Event.promptTelegram u] else []

/-- Lines 136-153 for one reviewer that passed all three skip checks:
create + share the spreadsheet, write the two worksheets, open the
Telegram session, send, close. Each external call either succeeds
(emitting its event) or raises (`World.fails`), aborting the iteration
with the events emitted so far; a failing send still closes the session
because the `async with` block exits. -/
def runEffects (cfg : Config) (w : World) (u handle : String) :
    List Event × StepResult :=
  let name := tableName cfg u
  if w.fails (.create u) then ([], .errored) else
  if w.fails (.share u) then ([.createSpreadsheet u name], .errored) else
  if w.fails (.writeReviews u) then
    ([.createSpreadsheet u name, .shareSpreadsheet u name], .errored) else
  if w.fails (.writeSummary u) then
    ([.createSpreadsheet u name, .shareSpreadsheet u name,
      .writeWorksheet u 0 "Ревью"], .errored) else
  if w.fails (.sessionOpen u) then
    ([.createSpreadsheet u name, .shareSpreadsheet u name,
      .writeWorksheet u 0 "Ревью", .writeWorksheet u 1 "Суммарно"], .errored) else
  if w.fails (.send u) then
    ([.createSpreadsheet u name, .shareSpreadsheet u name,
      .writeWorksheet u 0 "Ревью", .writeWorksheet u 1 "Суммарно",
      .sessionOpen u, .sessionClose u], .errored)
  else
    ([.createSpreadsheet u name, .shareSpreadsheet u name,
      .writeWorksheet u 0 "Ревью", .writeWorksheet u 1 "Суммарно",
      .sessionOpen u, .sendMessage u handle (renderedMessage cfg w u),
      .sessionClose u], .processed)

/-- One iteration of the `for dvmn_reviewer_username,
dvmn_reviewer_telegram in dvmn_reviewers.items()` loop (lines 115-153):
the empty-summary check (lines 116-120), the optional confirmation
prompt (lines 122-127), the missing-contact prompt (lines 129-134), then
the external effects. -/
def processReviewer (cfg : Config) (w : World) (inv : Invoice)
    (u tg : String) : List Event × StepResult :=
  let reviewerSummary := inv.summary.filter (fun r => r.reviewer == u)
  if reviewerSummary.length = 0 then
    ([.logNoWork u], .skipped)
  else if cfg.confirmEveryReviewer && (w.confirmAnswer u).isEmpty then
    (confirmTrace cfg u ++ [.logSkipConfirm u], .skipped)
  else if tg.isEmpty && (w.telegramAnswer u).isEmpty then
    (confirmTrace cfg u ++ contactTrace tg u ++ [.warnNoTelegram u], .skipped)
  else
    let handle := if tg.isEmpty then w.telegramAnswer u else tg
    let (evs, r) := runEffects cfg w u handle
    (confirmTrace cfg u ++ contactTrace tg u ++ evs, r)

/-- The whole loop: iterate `processReviewer` over the reviewer→telegram
entries in mapping order; an uncaught exception (an `errored` step)
terminates the run (`false`), leaving the remaining entries
unprocessed. -/
def amainRun (cfg : Config) (w : World) (inv : Invoice) :
    List (String × String) → List Event × Bool
  | [] => ([], true)
  | (u, tg) :: rest =>
    let step := processReviewer cfg w inv u tg
    if step.2 = .errored then (step.1, false)
    else (step.1 ++ (amainRun cfg w inv rest).1, (amainRun cfg w inv rest).2)

/-- The loop of `amain`, run over the invoice's
`dvmn_reviewers.items()`. -/
def amain (cfg : Config) (w : World) (inv : Invoice) : List Event × Bool :=
  amainRun cfg w inv inv.dvmnReviewers

/-- Number of spreadsheets created for reviewer `u` in a trace. -/
def countCreateFor (u : String) (tr : List Event) : Nat :=
  (tr.filter fun e => e.isCreate && Event.user e == u).length

/-- Number of messages sent for reviewer `u` in a trace. -/
def countSendFor (u : String) (tr : List Event) : Nat :=
  (tr.filter fun e => e.isSend && Event.user e == u).length

/-- The subtrace of session open/close events. -/
def sessionEvents (tr : List Event) : List Event :=
  tr.filter Event.isSession

/-- A session trace is a sequence of immediately closed sessions: each
open is followed by the same reviewer's close before any other open. -/
def scopedPairs : List Event → Bool
  | [] => true
  | .sessionOpen u :: .sessionClose u' :: rest => u == u' && scopedPairs rest
  | _ => false

/-- No external call of reviewer `u` raises. -/
def NoFailuresFor (w : World) (u : String) : Prop :=
  w.fails (.create u) = false ∧ w.fails (.share u) = false ∧
  w.fails (.writeReviews u) = false ∧ w.fails (.writeSummary u) = false ∧
  w.fails (.sessionOpen u) = false ∧ w.fails (.send u) = false

/-! ### Helper lemmas about the loop traces -/

theorem mem_runEffects_user (cfg : Config) (w : World) (u handle : String) :
    ∀ e ∈ (runEffects cfg w u handle).1, e.user = u := by
  intro e he
  simp only [runEffects] at he
  repeat' split at he
  all_goals fin_cases he <;> rfl

theorem mem_confirmTrace_user (cfg : Config) (u : String) :
    ∀ e ∈ confirmTrace cfg u, e.user = u := by
  intro e he
  simp only [confirmTrace] at he
  split at he
  all_goals fin_cases he <;> rfl

theorem mem_contactTrace_user (tg u : String) :
    ∀ e ∈ contactTrace tg u, e.user = u := by
  intro e he
  simp only [contactTrace] at he
  split at he
  all_goals fin_cases he <;> rfl

theorem mem_processReviewer_user (cfg : Config) (w : World) (inv : Invoice)
    (u tg : String) :
    ∀ e ∈ (processReviewer cfg w inv u tg).1, e.user = u := by
  intro e he
  simp only [processReviewer] at he
  repeat' split at he
  all_goals
    simp only [List.mem_append, List.mem_cons, List.not_mem_nil, or_false] at he
  · simp_all [Event.user]
  · rcases he with h | rfl
    · exact mem_confirmTrace_user cfg u e h
    · rfl
  · rcases he with (h | h) | rfl
    · exact mem_confirmTrace_user cfg u e h
    · exact mem_contactTrace_user tg u e h
    · rfl
  · rcases he with (h | h) | h
    · exact mem_confirmTrace_user cfg u e h
    · exact mem_contactTrace_user tg u e h
    · exact mem_runEffects_user cfg w u _ e h
  · rcases he with (h | h) | h
    · exact mem_confirmTrace_user cfg u e h
    · exact mem_contactTrace_user tg u e h
    · exact mem_runEffects_user cfg w u _ e h

/-- Events of another reviewer's iteration never match a
`… && user == u` predicate. -/
theorem filter_processReviewer_ne (cfg : Config) (w : World) (inv : Invoice)
    (q : Event → Bool) {u' u : String} (tg : String) (hne : u' ≠ u) :
    (processReviewer cfg w inv u' tg).1.filter
      (fun e => q e && Event.user e == u) = [] := by
  rw [List.filter_eq_nil_iff]
  intro e he
  have hu := mem_processReviewer_user cfg w inv u' tg e he
  simp [hu, hne]

theorem amainRun_filter_nil (cfg : Config) (w : World) (inv : Invoice)
    (p : Event → Bool)
    (h : ∀ u' tg', (processReviewer cfg w inv u' tg').1.filter p = []) :
    ∀ l, (amainRun cfg w inv l).1.filter p = []
  | [] => rfl
  | (u', tg') :: rest => by
    simp only [amainRun]
    split
    · exact h u' tg'
    · simp [List.filter_append, h u' tg',
        amainRun_filter_nil cfg w inv p h rest]


theorem countCreateFor_append (u : String) (a b : List Event) :
    countCreateFor u (a ++ b) = countCreateFor u a + countCreateFor u b := by
  simp [countCreateFor, List.filter_append]

theorem countSendFor_append (u : String) (a b : List Event) :
    countSendFor u (a ++ b) = countSendFor u a + countSendFor u b := by
  simp [countSendFor, List.filter_append]

theorem countCreateFor_confirmTrace (cfg : Config) (u v : String) :
    countCreateFor u (confirmTrace cfg v) = 0 := by
  simp only [countCreateFor, confirmTrace]
  split <;> rfl

theorem countSendFor_confirmTrace (cfg : Config) (u v : String) :
    countSendFor u (confirmTrace cfg v) = 0 := by
  simp only [countSendFor, confirmTrace]
  split <;> rfl

theorem countCreateFor_contactTrace (tg u v : String) :
    countCreateFor u (contactTrace tg v) = 0 := by
  simp only [countCreateFor, contactTrace]
  split <;> rfl

theorem countSendFor_contactTrace (tg u v : String) :
    countSendFor u (contactTrace tg v) = 0 := by
  simp only [countSendFor, contactTrace]
  split <;> rfl

theorem countCreateFor_runEffects_le (cfg : Config) (w : World)
    (u handle : String) :
    countCreateFor u (runEffects cfg w u handle).1 ≤ 1 := by
  simp only [runEffects]
  repeat' split
  all_goals simp [countCreateFor, Event.isCreate, Event.user]

theorem countSendFor_runEffects_le (cfg : Config) (w : World)
    (u handle : String) :
    countSendFor u (runEffects cfg w u handle).1 ≤ 1 := by
  simp only [runEffects]
  repeat' split
  all_goals simp [countSendFor, Event.isSend, Event.user]

theorem countCreateFor_processReviewer_le (cfg : Config) (w : World)
    (inv : Invoice) (u tg : String) :
    countCreateFor u (processReviewer cfg w inv u tg).1 ≤ 1 := by
  simp only [processReviewer]
  repeat' split
  all_goals
    simp only [countCreateFor_append, countCreateFor_confirmTrace,
      countCreateFor_contactTrace, Nat.zero_add]
  · simp [countCreateFor, Event.isCreate]
  · simp [countCreateFor, Event.isCreate]
  · simp [countCreateFor, Event.isCreate]
  · exact countCreateFor_runEffects_le cfg w u _
  · exact countCreateFor_runEffects_le cfg w u _

theorem countSendFor_processReviewer_le (cfg : Config) (w : World)
    (inv : Invoice) (u tg : String) :
    countSendFor u (processReviewer cfg w inv u tg).1 ≤ 1 := by
  simp only [processReviewer]
  repeat' split
  all_goals
    simp only [countSendFor_append, countSendFor_confirmTrace,
      countSendFor_contactTrace, Nat.zero_add]
  · simp [countSendFor, Event.isSend]
  · simp [countSendFor, Event.isSend]
  · simp [countSendFor, Event.isSend]
  · exact countSendFor_runEffects_le cfg w u _
  · exact countSendFor_runEffects_le cfg w u _

theorem filter_isSession_confirmTrace (cfg : Config) (u : String) :
    (confirmTrace cfg u).filter Event.isSession = [] := by
  simp only [confirmTrace]
  split <;> rfl

theorem filter_isSession_contactTrace (tg u : String) :
    (contactTrace tg u).filter Event.isSession = [] := by
  simp only [contactTrace]
  split <;> rfl

theorem filter_isSession_runEffects (cfg : Config) (w : World)
    (u handle : String) :
    (runEffects cfg w u handle).1.filter Event.isSession = [] ∨
    (runEffects cfg w u handle).1.filter Event.isSession =
      [.sessionOpen u, .sessionClose u] := by
  simp only [runEffects]
  repeat' split
  all_goals simp [Event.isSession]

theorem filter_isSession_processReviewer (cfg : Config) (w : World)
    (inv : Invoice) (u tg : String) :
    (processReviewer cfg w inv u tg).1.filter Event.isSession = [] ∨
    (processReviewer cfg w inv u tg).1.filter Event.isSession =
      [.sessionOpen u, .sessionClose u] := by
  simp only [processReviewer]
  repeat' split
  all_goals
    simp only [List.filter_append, filter_isSession_confirmTrace,
      filter_isSession_contactTrace, List.nil_append, List.append_nil]
  · left; rfl
  · left; rfl
  · left; rfl
  · exact filter_isSession_runEffects cfg w u _
  · exact filter_isSession_runEffects cfg w u _


theorem amainRun_filter_nil_of_not_mem (cfg : Config) (w : World) (inv : Invoice)
    (q : Event → Bool) (u : String) :
    ∀ l, u ∉ l.map Prod.fst →
      (amainRun cfg w inv l).1.filter (fun e => q e && Event.user e == u) = []
  | [], _ => rfl
  | (u', tg') :: rest, h => by
    rw [List.map_cons, List.mem_cons] at h
    push_neg at h
    have hne : u' ≠ u := fun hc => h.1 hc.symm
    simp only [amainRun]
    split
    · exact filter_processReviewer_ne cfg w inv q tg' hne
    · simp [List.filter_append, filter_processReviewer_ne cfg w inv q tg' hne,
        amainRun_filter_nil_of_not_mem cfg w inv q u rest h.2]

theorem amainRun_filter_le_one (cfg : Config) (w : World) (inv : Invoice)
    (q : Event → Bool) (u : String)
    (hle : ∀ tg', ((processReviewer cfg w inv u tg').1.filter
      (fun e => q e && Event.user e == u)).length ≤ 1) :
    ∀ l, (l.map Prod.fst).Nodup →
      ((amainRun cfg w inv l).1.filter
        (fun e => q e && Event.user e == u)).length ≤ 1
  | [], _ => by simp [amainRun]
  | (u', tg') :: rest, hnd => by
    rw [List.map_cons, List.nodup_cons] at hnd
    simp only [amainRun]
    split
    · by_cases hu : u' = u
      · subst hu; exact hle tg'
      · simp [filter_processReviewer_ne cfg w inv q tg' hu]
    · by_cases hu : u' = u
      · subst hu
        simp [List.filter_append,
          amainRun_filter_nil_of_not_mem cfg w inv q u' rest hnd.1]
        exact hle tg'
      · simp [List.filter_append, filter_processReviewer_ne cfg w inv q tg' hu]
        exact amainRun_filter_le_one cfg w inv q u hle rest hnd.2

theorem scopedPairs_amainRun (cfg : Config) (w : World) (inv : Invoice) :
    ∀ l, scopedPairs ((amainRun cfg w inv l).1.filter Event.isSession) = true
  | [] => rfl
  | (u, tg) :: rest => by
    have ih := scopedPairs_amainRun cfg w inv rest
    simp only [amainRun]
    split
    · rcases filter_isSession_processReviewer cfg w inv u tg with h | h <;>
        simp [h, scopedPairs]
    · rcases filter_isSession_processReviewer cfg w inv u tg with h | h <;>
        simp [List.filter_append, h, scopedPairs, ih]


instance (w : World) (u : String) : Decidable (NoFailuresFor w u) := by
  unfold NoFailuresFor; infer_instance

/-! ### Sample data for concrete witnesses -/

/-- A concrete configuration exercising the loop. -/
def sampleCfg : Config :=
  { month := 9, year := 2025,
    googleTableName := fun ym un => "dvmn_" ++ ym ++ "_" ++ un,
    messageTemplate := fun y m url =>
      "Invoice " ++ toString y ++ "-" ++ toString m ++ ": " ++ url,
    confirmEveryReviewer := false }

/-- `sampleCfg` with the confirm-per-reviewer flag enabled. -/
def sampleCfgConfirm : Config :=
  { sampleCfg with confirmEveryReviewer := true }

/-- A concrete invoice: `alice` has work, `bob` has none, `carol` has
work but no telegram handle. -/
def sampleInvoice : Invoice :=
  { monthReviews := [⟨"alice", ["alice", "r1"]⟩, ⟨"carol", ["carol", "r2"]⟩],
    summary := [⟨"alice", ["alice", "10"]⟩, ⟨"carol", ["carol", "4"]⟩],
    dvmnReviewers := [("alice", "@alice_tg"), ("bob", "@bob_tg"), ("carol", "")] }

/-- An operator that confirms everything and supplies `@fallback` as the
replacement handle; no external call fails. -/
def sampleWorld : World :=
  { confirmAnswer := fun _ => "y",
    telegramAnswer := fun _ => "@fallback",
    spreadsheetUrl := fun name => "https://sheets.example/" ++ name,
    fails := fun _ => false }

/-- `sampleWorld`, except that sending the message to `alice` raises. -/
def failSendWorld : World :=
  { sampleWorld with
    fails := fun fp => match fp with
      | .send u => u == "alice"
      | _ => false }

/-- `sampleWorld`, except the operator answers every prompt with an
empty string. -/
def emptyAnswerWorld : World :=
  { sampleWorld with
    confirmAnswer := fun _ => "",
    telegramAnswer := fun _ => "" }

/-! ### The claims about the loop -/

/-- **C2.** A reviewer whose summary slice is empty is logged and
skipped: the iteration emits exactly the log event and results in
`skipped` (processing continues), and the whole run creates no
spreadsheet and sends no message for that reviewer. -/
theorem empty_slice_skipped (cfg : Config) (w : World) (inv : Invoice)
    (u tg : String)
    (h : (inv.summary.filter (fun r => r.reviewer == u)).length = 0) :
    processReviewer cfg w inv u tg = ([.logNoWork u], .skipped) ∧
    countCreateFor u (amain cfg w inv).1 = 0 ∧
    countSendFor u (amain cfg w inv).1 = 0 := by
  have hstep : ∀ tg', processReviewer cfg w inv u tg' = ([.logNoWork u], .skipped) := by
    intro tg'
    simp [processReviewer, h]
  have hnil : ∀ q : Event → Bool, ∀ u' tg',
      (processReviewer cfg w inv u' tg').1.filter
        (fun e => q e && Event.user e == u) = [] ∨
      (processReviewer cfg w inv u' tg').1 = [.logNoWork u] := by
    intro q u' tg'
    by_cases hu : u' = u
    · subst hu; right; rw [hstep tg']
    · left; exact filter_processReviewer_ne cfg w inv q tg' hu
  have hc : ∀ u' tg', (processReviewer cfg w inv u' tg').1.filter
      (fun e => Event.isCreate e && Event.user e == u) = [] := by
    intro u' tg'
    rcases hnil Event.isCreate u' tg' with hq | hq
    · exact hq
    · rw [hq]; rfl
  have hs : ∀ u' tg', (processReviewer cfg w inv u' tg').1.filter
      (fun e => Event.isSend e && Event.user e == u) = [] := by
    intro u' tg'
    rcases hnil Event.isSend u' tg' with hq | hq
    · exact hq
    · rw [hq]; rfl
  refine ⟨hstep tg, ?_, ?_⟩
  · unfold countCreateFor amain
    rw [amainRun_filter_nil cfg w inv _ hc]
    rfl
  · unfold countSendFor amain
    rw [amainRun_filter_nil cfg w inv _ hs]
    rfl

/-- **C2 witness.** `bob` has no summary rows in `sampleInvoice`. -/
theorem empty_slice_skipped_witness :
    (sampleInvoice.summary.filter (fun r => r.reviewer == "bob")).length = 0 ∧
    (processReviewer sampleCfg sampleWorld sampleInvoice "bob" "@bob_tg" =
        ([.logNoWork "bob"], .skipped) ∧
      countCreateFor "bob" (amain sampleCfg sampleWorld sampleInvoice).1 = 0 ∧
      countSendFor "bob" (amain sampleCfg sampleWorld sampleInvoice).1 = 0) :=
  ⟨by decide,
   empty_slice_skipped sampleCfg sampleWorld sampleInvoice "bob" "@bob_tg" (by decide)⟩

/-- **C3.** An error raised while processing a reviewer is not caught in
the loop: the run terminates with exactly the events of the earlier
(non-failing) reviewers followed by the failing reviewer's partial
events — reviewers after the failing one contribute nothing. -/
theorem error_terminates_run (cfg : Config) (w : World) (inv : Invoice)
    (pre post : List (String × String)) (u tg : String)
    (hpre : ∀ p ∈ pre, (processReviewer cfg w inv p.1 p.2).2 ≠ .errored)
    (herr : (processReviewer cfg w inv u tg).2 = .errored) :
    amainRun cfg w inv (pre ++ (u, tg) :: post) =
      ((pre.map fun p => (processReviewer cfg w inv p.1 p.2).1).flatten ++
        (processReviewer cfg w inv u tg).1, false) := by
  induction pre with
  | nil => simp [amainRun, herr]
  | cons p ps ih =>
    obtain ⟨u₁, t₁⟩ := p
    have h1 := hpre (u₁, t₁) (List.mem_cons_self _ _)
    have ih' := ih (fun q hq => hpre q (List.mem_cons_of_mem _ hq))
    simp only [List.cons_append, amainRun]
    rw [if_neg h1]
    simp only [List.append_eq]
    rw [ih']
    simp [List.append_assoc]

/-- **C3 witness.** With `failSendWorld`, `alice`'s send raises: the run
stops with her partial trace and neither `bob` nor `carol` appears. -/
theorem error_terminates_run_witness :
    (∀ p ∈ ([] : List (String × String)),
        (processReviewer sampleCfg failSendWorld sampleInvoice p.1 p.2).2 ≠
          .errored) ∧
    (processReviewer sampleCfg failSendWorld sampleInvoice "alice" "@alice_tg").2 =
      .errored ∧
    amainRun sampleCfg failSendWorld sampleInvoice
        ([] ++ ("alice", "@alice_tg") :: [("bob", "@bob_tg"), ("carol", "")]) =
      ((([] : List (String × String)).map fun p =>
          (processReviewer sampleCfg failSendWorld sampleInvoice p.1 p.2).1).flatten ++
        (processReviewer sampleCfg failSendWorld sampleInvoice "alice" "@alice_tg").1,
       false) :=
  ⟨fun p hp => absurd hp (List.not_mem_nil p), by decide,
   error_terminates_run sampleCfg failSendWorld sampleInvoice []
     [("bob", "@bob_tg"), ("carol", "")] "alice" "@alice_tg"
     (fun p hp => absurd hp (List.not_mem_nil p)) (by decide)⟩

/-- **C8.** Session events of the whole run form a sequence of
immediately closed sessions — no two reviewers' sessions are ever open
at the same time — and each iteration's session events are either none
or exactly its own open/close pair (the close also present when the
send raises, since the `async with` exit disconnects). -/
theorem sessions_scoped (cfg : Config) (w : World) (inv : Invoice) :
    scopedPairs (sessionEvents (amain cfg w inv).1) = true ∧
    ∀ u tg, sessionEvents (processReviewer cfg w inv u tg).1 = [] ∨
      sessionEvents (processReviewer cfg w inv u tg).1 =
        [.sessionOpen u, .sessionClose u] :=
  ⟨scopedPairs_amainRun cfg w inv inv.dvmnReviewers,
   fun u tg => filter_isSession_processReviewer cfg w inv u tg⟩

/-- **C9.** When the reviewer mapping has no duplicate identifiers (a
Python `dict` cannot), every reviewer gets at most one spreadsheet and
at most one message in the whole run. -/
theorem reviewer_at_most_once (cfg : Config) (w : World) (inv : Invoice)
    (hnd : (inv.dvmnReviewers.map Prod.fst).Nodup) (u : String) :
    countCreateFor u (amain cfg w inv).1 ≤ 1 ∧
    countSendFor u (amain cfg w inv).1 ≤ 1 :=
  ⟨amainRun_filter_le_one cfg w inv Event.isCreate u
      (fun tg' => countCreateFor_processReviewer_le cfg w inv u tg')
      inv.dvmnReviewers hnd,
   amainRun_filter_le_one cfg w inv Event.isSend u
      (fun tg' => countSendFor_processReviewer_le cfg w inv u tg')
      inv.dvmnReviewers hnd⟩

/-- **C9 witness.** The sample mapping has distinct keys; `alice` gets
at most one spreadsheet and one message. -/
theorem reviewer_at_most_once_witness :
    (sampleInvoice.dvmnReviewers.map Prod.fst).Nodup ∧
    (countCreateFor "alice" (amain sampleCfg sampleWorld sampleInvoice).1 ≤ 1 ∧
      countSendFor "alice" (amain sampleCfg sampleWorld sampleInvoice).1 ≤ 1) :=
  ⟨by decide,
   reviewer_at_most_once sampleCfg sampleWorld sampleInvoice (by decide) "alice"⟩

theorem filter_isPromptConfirm_contactTrace (tg u : String) :
    (contactTrace tg u).filter Event.isPromptConfirm = [] := by
  simp only [contactTrace]
  split <;> rfl

theorem filter_isPromptConfirm_runEffects (cfg : Config) (w : World)
    (u handle : String) :
    (runEffects cfg w u handle).1.filter Event.isPromptConfirm = [] := by
  simp only [runEffects]
  repeat' split
  all_goals rfl

theorem filter_isPromptConfirm_processReviewer (cfg : Config) (w : World)
    (inv : Invoice) (hflag : cfg.confirmEveryReviewer = false) (u' tg' : String) :
    (processReviewer cfg w inv u' tg').1.filter Event.isPromptConfirm = [] := by
  have hct : confirmTrace cfg u' = [] := by simp [confirmTrace, hflag]
  simp only [processReviewer, hct, List.nil_append]
  repeat' split
  all_goals
    simp [List.filter_append, filter_isPromptConfirm_contactTrace,
      filter_isPromptConfirm_runEffects, Event.isPromptConfirm]

theorem runEffects_update (cfg : Config) (b : Bool) (w : World)
    (u handle : String) :
    runEffects { cfg with confirmEveryReviewer := b } w u handle =
      runEffects cfg w u handle := rfl

/-- **C4.** The confirmation prompt is shown exactly when the
confirm-per-reviewer flag is set: with the flag off the whole run shows
no confirmation prompt; with the flag on and a non-empty summary slice,
an empty operator response skips the reviewer (log entry, no
spreadsheet, no message anywhere in the run), while a non-empty response
proceeds exactly as the flag-off iteration would, after the prompt. -/
theorem confirm_prompt_gate (cfg : Config) (w : World) (inv : Invoice)
    (u tg : String) :
    (cfg.confirmEveryReviewer = false →
      (amain cfg w inv).1.filter Event.isPromptConfirm = []) ∧
    (cfg.confirmEveryReviewer = true →
      (inv.summary.filter (fun r => r.reviewer == u)).length ≠ 0 →
      (w.confirmAnswer u = "" →
        processReviewer cfg w inv u tg =
          ([.promptConfirm u, .logSkipConfirm u], .skipped) ∧
        countCreateFor u (amain cfg w inv).1 = 0 ∧
        countSendFor u (amain cfg w inv).1 = 0) ∧
      (w.confirmAnswer u ≠ "" →
        processReviewer cfg w inv u tg =
          (Event.promptConfirm u ::
            (processReviewer { cfg with confirmEveryReviewer := false }
              w inv u tg).1,
           (processReviewer { cfg with confirmEveryReviewer := false }
              w inv u tg).2))) := by
  constructor
  · intro hflag
    unfold amain
    exact amainRun_filter_nil cfg w inv _
      (filter_isPromptConfirm_processReviewer cfg w inv hflag) inv.dvmnReviewers
  · intro hflag hlen
    constructor
    · intro hans
      have hstep : ∀ tg', processReviewer cfg w inv u tg' =
          ([.promptConfirm u, .logSkipConfirm u], .skipped) := by
        intro tg'
        simp [processReviewer, hlen, hflag, hans, confirmTrace,
          show ("" : String).isEmpty = true from rfl]
      have hc : ∀ u' tg', (processReviewer cfg w inv u' tg').1.filter
          (fun e => Event.isCreate e && Event.user e == u) = [] := by
        intro u' tg'
        by_cases hu : u' = u
        · subst hu; rw [hstep tg']; rfl
        · exact filter_processReviewer_ne cfg w inv Event.isCreate tg' hu
      have hsnd : ∀ u' tg', (processReviewer cfg w inv u' tg').1.filter
          (fun e => Event.isSend e && Event.user e == u) = [] := by
        intro u' tg'
        by_cases hu : u' = u
        · subst hu; rw [hstep tg']; rfl
        · exact filter_processReviewer_ne cfg w inv Event.isSend tg' hu
      refine ⟨hstep tg, ?_, ?_⟩
      · unfold countCreateFor amain
        rw [amainRun_filter_nil cfg w inv _ hc]
        rfl
      · unfold countSendFor amain
        rw [amainRun_filter_nil cfg w inv _ hsnd]
        rfl
    · intro hne
      have hemp : (w.confirmAnswer u).isEmpty = false := by
        cases hb : (w.confirmAnswer u).isEmpty
        · rfl
        · exact absurd (((w.confirmAnswer u).isEmpty_iff).mp hb) hne
      by_cases h3 : (tg.isEmpty && (w.telegramAnswer u).isEmpty) = true <;>
        simp [processReviewer, runEffects_update, confirmTrace,
          hlen, hflag, hemp, h3]

/-- **C4 witness.** Flag off: no confirmation prompt in the sample run.
Flag on: an empty answer skips `alice` with no spreadsheet or message;
a non-empty answer proceeds as the flag-off iteration would. -/
theorem confirm_prompt_gate_witness :
    (amain sampleCfg sampleWorld sampleInvoice).1.filter Event.isPromptConfirm = [] ∧
    (processReviewer sampleCfgConfirm emptyAnswerWorld sampleInvoice
        "alice" "@alice_tg" =
        ([.promptConfirm "alice", .logSkipConfirm "alice"], .skipped) ∧
      countCreateFor "alice"
        (amain sampleCfgConfirm emptyAnswerWorld sampleInvoice).1 = 0 ∧
      countSendFor "alice"
        (amain sampleCfgConfirm emptyAnswerWorld sampleInvoice).1 = 0) ∧
    processReviewer sampleCfgConfirm sampleWorld sampleInvoice "alice" "@alice_tg" =
      (Event.promptConfirm "alice" ::
        (processReviewer { sampleCfgConfirm with confirmEveryReviewer := false }
          sampleWorld sampleInvoice "alice" "@alice_tg").1,
       (processReviewer { sampleCfgConfirm with confirmEveryReviewer := false }
          sampleWorld sampleInvoice "alice" "@alice_tg").2) :=
  ⟨(confirm_prompt_gate sampleCfg sampleWorld sampleInvoice "alice" "@alice_tg").1 rfl,
   ((confirm_prompt_gate sampleCfgConfirm emptyAnswerWorld sampleInvoice
       "alice" "@alice_tg").2 rfl (by decide)).1 rfl,
   ((confirm_prompt_gate sampleCfgConfirm sampleWorld sampleInvoice
       "alice" "@alice_tg").2 rfl (by decide)).2 (by decide)⟩

/-- **C5.** A reviewer who reaches the contact check with an empty
handle is prompted for a replacement: a non-empty replacement is used as
the send target (processing completes when no call fails), while an
empty replacement skips the reviewer with a warning — no spreadsheet is
created and the run goes on with the remaining reviewers. -/
theorem missing_contact_fallback (cfg : Config) (w : World) (inv : Invoice)
    (u : String)
    (hs : (inv.summary.filter (fun r => r.reviewer == u)).length ≠ 0)
    (hc : (cfg.confirmEveryReviewer && (w.confirmAnswer u).isEmpty) = false) :
    (w.telegramAnswer u ≠ "" → NoFailuresFor w u →
      processReviewer cfg w inv u "" =
        (confirmTrace cfg u ++
          [.promptTelegram u,
           .createSpreadsheet u (tableName cfg u),
           .shareSpreadsheet u (tableName cfg u),
           .writeWorksheet u 0 "Ревью", .writeWorksheet u 1 "Суммарно",
           .sessionOpen u,
           .sendMessage u (w.telegramAnswer u) (renderedMessage cfg w u),
           .sessionClose u], .processed)) ∧
    (w.telegramAnswer u = "" →
      processReviewer cfg w inv u "" =
        (confirmTrace cfg u ++ [.promptTelegram u, .warnNoTelegram u],
         .skipped) ∧
      countCreateFor u (processReviewer cfg w inv u "").1 = 0 ∧
      ∀ rest, amainRun cfg w inv ((u, "") :: rest) =
        ((confirmTrace cfg u ++ [.promptTelegram u, .warnNoTelegram u]) ++
          (amainRun cfg w inv rest).1, (amainRun cfg w inv rest).2)) := by
  constructor
  · intro hne hf
    obtain ⟨f1, f2, f3, f4, f5, f6⟩ := hf
    have hemp : (w.telegramAnswer u).isEmpty = false := by
      cases hb : (w.telegramAnswer u).isEmpty
      · rfl
      · exact absurd (((w.telegramAnswer u).isEmpty_iff).mp hb) hne
    simp [processReviewer, runEffects, contactTrace, hs, hc, hemp,
      f1, f2, f3, f4, f5, f6,
      show ("" : String).isEmpty = true from rfl]
  · intro h0
    have heq : processReviewer cfg w inv u "" =
        (confirmTrace cfg u ++ [.promptTelegram u, .warnNoTelegram u],
         .skipped) := by
      simp [processReviewer, contactTrace, hs, hc, h0,
        show ("" : String).isEmpty = true from rfl]
    refine ⟨heq, ?_, ?_⟩
    · rw [heq]
      simp only [countCreateFor_append, countCreateFor_confirmTrace, Nat.zero_add]
      rfl
    · intro rest
      simp only [amainRun, heq]
      rfl

/-- **C5 witness.** `carol` has summary rows but an empty handle: with
`sampleWorld` the operator's `@fallback` receives the message; with
`emptyAnswerWorld` she is skipped with a warning and the run
continues. -/
theorem missing_contact_fallback_witness :
    (sampleWorld.telegramAnswer "carol" ≠ "" ∧ NoFailuresFor sampleWorld "carol" ∧
      processReviewer sampleCfg sampleWorld sampleInvoice "carol" "" =
        (confirmTrace sampleCfg "carol" ++
          [.promptTelegram "carol",
           .createSpreadsheet "carol" (tableName sampleCfg "carol"),
           .shareSpreadsheet "carol" (tableName sampleCfg "carol"),
           .writeWorksheet "carol" 0 "Ревью", .writeWorksheet "carol" 1 "Суммарно",
           .sessionOpen "carol",
           .sendMessage "carol" (sampleWorld.telegramAnswer "carol")
             (renderedMessage sampleCfg sampleWorld "carol"),
           .sessionClose "carol"], .processed)) ∧
    (emptyAnswerWorld.telegramAnswer "carol" = "" ∧
      processReviewer sampleCfg emptyAnswerWorld sampleInvoice "carol" "" =
        (confirmTrace sampleCfg "carol" ++
          [.promptTelegram "carol", .warnNoTelegram "carol"], .skipped) ∧
      countCreateFor "carol"
        (processReviewer sampleCfg emptyAnswerWorld sampleInvoice "carol" "").1 = 0 ∧
      amainRun sampleCfg emptyAnswerWorld sampleInvoice [("carol", "")] =
        ((confirmTrace sampleCfg "carol" ++
            [.promptTelegram "carol", .warnNoTelegram "carol"]) ++
          (amainRun sampleCfg emptyAnswerWorld sampleInvoice []).1,
         (amainRun sampleCfg emptyAnswerWorld sampleInvoice []).2)) :=
  ⟨⟨by decide, by decide,
    (missing_contact_fallback sampleCfg sampleWorld sampleInvoice "carol"
      (by decide) (by decide)).1 (by decide) (by decide)⟩,
   by decide,
   ((missing_contact_fallback sampleCfg emptyAnswerWorld sampleInvoice "carol"
      (by decide) (by decide)).2 rfl).1,
   ((missing_contact_fallback sampleCfg emptyAnswerWorld sampleInvoice "carol"
      (by decide) (by decide)).2 rfl).2.1,
   ((missing_contact_fallback sampleCfg emptyAnswerWorld sampleInvoice "carol"
      (by decide) (by decide)).2 rfl).2.2 []⟩

/-- **C10.** The three skip checks run in order: an empty summary slice
short-circuits before any prompt is shown, and a reviewer skipped at the
confirmation prompt is never asked for a replacement handle. -/
theorem skip_checks_ordered (cfg : Config) (w : World) (inv : Invoice)
    (u tg : String) :
    ((inv.summary.filter (fun r => r.reviewer == u)).length = 0 →
      processReviewer cfg w inv u tg = ([.logNoWork u], .skipped) ∧
      (processReviewer cfg w inv u tg).1.filter
        (fun e => e.isPromptConfirm || e.isPromptTelegram) = []) ∧
    ((inv.summary.filter (fun r => r.reviewer == u)).length ≠ 0 →
      cfg.confirmEveryReviewer = true → w.confirmAnswer u = "" →
      processReviewer cfg w inv u tg =
        ([.promptConfirm u, .logSkipConfirm u], .skipped) ∧
      (processReviewer cfg w inv u tg).1.filter Event.isPromptTelegram = []) := by
  constructor
  · intro h
    have he : processReviewer cfg w inv u tg = ([.logNoWork u], .skipped) := by
      simp [processReviewer, h]
    exact ⟨he, by rw [he]; rfl⟩
  · intro hlen hflag hans
    have he : processReviewer cfg w inv u tg =
        ([.promptConfirm u, .logSkipConfirm u], .skipped) := by
      simp [processReviewer, hlen, hflag, hans, confirmTrace,
        show ("" : String).isEmpty = true from rfl]
    exact ⟨he, by rw [he]; rfl⟩

/-- **C10 witness.** `bob` (empty slice) triggers no prompt at all;
`alice` skipped at the confirmation prompt is never asked for a
handle. -/
theorem skip_checks_ordered_witness :
    ((sampleInvoice.summary.filter (fun r => r.reviewer == "bob")).length = 0 ∧
      processReviewer sampleCfgConfirm emptyAnswerWorld sampleInvoice
          "bob" "@bob_tg" = ([.logNoWork "bob"], .skipped) ∧
      (processReviewer sampleCfgConfirm emptyAnswerWorld sampleInvoice
          "bob" "@bob_tg").1.filter
        (fun e => e.isPromptConfirm || e.isPromptTelegram) = []) ∧
    (processReviewer sampleCfgConfirm emptyAnswerWorld sampleInvoice
        "alice" "@alice_tg" =
        ([.promptConfirm "alice", .logSkipConfirm "alice"], .skipped) ∧
      (processReviewer sampleCfgConfirm emptyAnswerWorld sampleInvoice
          "alice" "@alice_tg").1.filter Event.isPromptTelegram = []) :=
  ⟨⟨by decide,
    (skip_checks_ordered sampleCfgConfirm emptyAnswerWorld sampleInvoice
      "bob" "@bob_tg").1 (by decide)⟩,
   (skip_checks_ordered sampleCfgConfirm emptyAnswerWorld sampleInvoice
     "alice" "@alice_tg").2 (by decide) rfl rfl⟩


/-- A concrete `month_reviews_df` for the C6 witness. -/
def sampleMonthDf : DataFrame :=
  ⟨["Ревьюер", "Работа"], [⟨"alice", ["alice", "r1"]⟩, ⟨"carol", ["carol", "r2"]⟩]⟩

/-- A concrete `summary_df` for the C6 witness. -/
def sampleSummaryDf : DataFrame :=
  ⟨["Ревьюер", "Итого"], [⟨"alice", ["alice", "10"]⟩, ⟨"carol", ["carol", "4"]⟩]⟩

/-- **C6 witness.** `alice`'s spreadsheet built from the sample tables:
two worksheets, each 1 header row plus one data row. -/
theorem reviewerSpreadsheet_two_worksheets_witness :
    (reviewerSpreadsheet (sliceDf sampleMonthDf "alice")
        (sliceDf sampleSummaryDf "alice")).worksheets.length = 2 ∧
    getWorksheet (reviewerSpreadsheet (sliceDf sampleMonthDf "alice")
        (sliceDf sampleSummaryDf "alice")) 0 =
      some ⟨"Ревью", 1000, 26, [["Ревьюер", "Работа"], ["alice", "r1"]]⟩ ∧
    getWorksheet (reviewerSpreadsheet (sliceDf sampleMonthDf "alice")
        (sliceDf sampleSummaryDf "alice")) 1 =
      some ⟨"Суммарно", 1000, 26, [["Ревьюер", "Итого"], ["alice", "10"]]⟩ ∧
    (Worksheet.mk "Ревью" 1000 26 [["Ревьюер", "Работа"], ["alice", "r1"]]).data.length =
      1 + (sliceDf sampleMonthDf "alice").rows.length ∧
    (Worksheet.mk "Суммарно" 1000 26 [["Ревьюер", "Итого"], ["alice", "10"]]).data.length =
      1 + (sliceDf sampleSummaryDf "alice").rows.length :=
  ⟨(reviewerSpreadsheet_two_worksheets sampleMonthDf sampleSummaryDf "alice").1,
   (reviewerSpreadsheet_two_worksheets sampleMonthDf sampleSummaryDf "alice").2.1,
   (reviewerSpreadsheet_two_worksheets sampleMonthDf sampleSummaryDf "alice").2.2.1,
   (reviewerSpreadsheet_two_worksheets sampleMonthDf sampleSummaryDf "alice").2.2.2.1
     ⟨"Ревью", 1000, 26, [["Ревьюер", "Работа"], ["alice", "r1"]]⟩ (by decide),
   (reviewerSpreadsheet_two_worksheets sampleMonthDf sampleSummaryDf "alice").2.2.2.2
     ⟨"Суммарно", 1000, 26, [["Ревьюер", "Итого"], ["alice", "10"]]⟩ (by decide)⟩

end DvmnInvoice
